import Mathlib

/-!
The application `freetrust-backend/index.js`

A shallow embedding of the Express application of `freetrust-backend/index.js`:
the three tables it queries, the eleven route registrations in their order, and
each handler as a function from the store (and the outcome of the external calls
of that request) to the new store and the JSON response.

Conventions of the embedding.

* A field of `req.body` is `Option String`: `none` is an absent field, `some s` a
  string. A JavaScript test `!x` holds for `none` and for `some ""`.
* The outcome of everything a handler awaits is fixed per request by an `Env`:
  whether the k-th `db.query` of the request rejects, whether `sendMail` rejects,
  the salt `bcrypt.hash` draws and the value of `crypto.randomBytes`.
* A rejected `db.query` changes no table.
-/

namespace FreeTrust

/-! ## Tables -/

/-- Row of the `users` table. -/
structure User where
  id : Nat
  username : String
  email : String
  password : String
deriving DecidableEq, Repr

/-- Row of the `password_resets` table. -/
structure PasswordReset where
  email : String
  token : String
deriving DecidableEq, Repr

/-- Row of the `jobs` table; every column but `id` may be NULL. -/
structure Job where
  id : Nat
  title : Option String
  category : Option String
  jobCategory : Option String
  salary : Option String
  property : Option String
  benefits : Option String
  location : Option String
deriving DecidableEq, Repr

/-- Argument of one call of `transporter.sendMail`. -/
structure Mail where
  sender : String
  recipient : String
  subject : String
  html : String
deriving DecidableEq, Repr

/-- The persistent state the handlers act on, together with the log of the calls
of `transporter.sendMail` made so far (the last call last). -/
structure Store where
  users : List User
  password_resets : List PasswordReset
  jobs : List Job
  mails : List Mail
deriving DecidableEq, Repr

/-! ## External collaborators -/

/-- The two functions of `bcrypt` the handlers call. `hash p salt` is
`bcrypt.hash(p, 10)` when the salt drawn is `salt`; `compare p d` is
`bcrypt.compare(p, d)`. -/
structure Bcrypt where
  hash : String → Nat → String
  compare : String → String → Bool

/-- Outcome of the external calls of one request. -/
structure Env where
  /-- Whether the k-th `db.query` of the request (counted from 0) rejects. -/
  dbFail : Nat → Bool
  /-- Whether `transporter.sendMail` rejects. -/
  mailFail : Bool
  /-- The salt drawn by `bcrypt.hash`. -/
  salt : Nat
  /-- The value of `crypto.randomBytes(32).toString('hex')`. -/
  randomBytes : String
  /-- The value of `process.env.EMAIL_USER`. -/
  emailUser : String

/-! ## Requests and responses -/

inductive Method
  | GET | POST | PUT | DELETE
deriving DecidableEq, Repr

/-- The fields of `req.body` the handlers read. -/
structure Body where
  username : Option String
  email : Option String
  password : Option String
  token : Option String
  title : Option String
  category : Option String
  jobCategory : Option String
  salary : Option String
  property : Option String
  benefits : Option String
  location : Option String
deriving DecidableEq, Repr

/-- The fields of `req.query` the handlers read, as the numbers their text
denotes. -/
structure Query where
  page : Option Nat
  limit : Option Nat
deriving DecidableEq, Repr

/-- The data of a JSON response next to its `success` flag. -/
inductive Payload
  | message (m : String)
  | jobs (rows : List Job)
  | job (row : Job)
deriving DecidableEq, Repr

/-- The reply `res.status(status).json({ success, ... })`; `res.json` alone has
status 200. -/
structure Response where
  status : Nat
  success : Bool
  payload : Payload
deriving DecidableEq, Repr

/-- JavaScript truthiness of a body field that is absent or a string. -/
def truthy : Option String → Bool
  | none => false
  | some s => s != ""

/-- The reply `res.status(code).json({ success: false, message: m })`. -/
def fail (code : Nat) (m : String) : Response :=
  ⟨code, false, .message m⟩

/-- The reply `res.json({ success: true, message: m })`. -/
def ok (m : String) : Response :=
  ⟨200, true, .message m⟩

/-! ## The queries

The module `./db` is not part of the sources; the SQL text of each query is. The
tables are lists of rows in insertion order, a lookup is exact-match as section 4.1
of the spec fixes it, and a parameter that is `undefined` is sent as NULL, which no
`=` comparison matches. -/

/-- Modelled from the spec: `db.query` of the missing module `./db`, for the text
`SELECT * FROM users WHERE email = ?`; an exact-match lookup. -/
def selectUsersByEmail (s : Store) (email : Option String) : List User :=
  match email with
  | none => []
  | some e => s.users.filter (fun u => u.email == e)

/-- Modelled from the spec: the schema is missing; the identifier the store assigns
to a row added to a table whose identifiers are `ids`, different from all of
them. -/
def nextId (ids : List Nat) : Nat :=
  ids.foldr max 0 + 1

/-- Modelled from the spec: `db.query` of the missing module `./db`, for the text
`INSERT INTO users (username, email, password) VALUES (?, ?, ?)`. -/
def insertUser (s : Store) (username email password : String) : Store :=
  { s with users := s.users ++ [⟨nextId (s.users.map User.id), username, email, password⟩] }

/-- Modelled from the spec: `db.query` of the missing module `./db`, for the text
`INSERT INTO password_resets (email, token) VALUES (?, ?)`. -/
def insertPasswordReset (s : Store) (email token : String) : Store :=
  { s with password_resets := s.password_resets ++ [⟨email, token⟩] }

/-- Modelled from the spec: `db.query` of the missing module `./db`, for the text
`SELECT email FROM password_resets WHERE token = ?`; an exact-match lookup. -/
def selectResetsByToken (s : Store) (token : Option String) : List PasswordReset :=
  match token with
  | none => []
  | some t => s.password_resets.filter (fun r => r.token == t)

/-- Modelled from the spec: `db.query` of the missing module `./db`, for the text
`UPDATE users SET password = ? WHERE email = ?`. -/
def updateUserPassword (s : Store) (password email : String) : Store :=
  { s with users := s.users.map (fun u => if u.email == email then { u with password := password } else u) }

/-- Modelled from the spec: `db.query` of the missing module `./db`, for the text
`DELETE FROM password_resets WHERE token = ?`. -/
def deleteResetsByToken (s : Store) (token : Option String) : Store :=
  match token with
  | none => s
  | some t => { s with password_resets := s.password_resets.filter (fun r => !(r.token == t)) }

/-- The email `reset-password` takes from its lookup: `rows[0].email`. -/
def resolveToken (s : Store) (token : String) : Option String :=
  (selectResetsByToken s (some token)).head?.map PasswordReset.email

/-! ## The users handlers -/

/-- The handler of `POST /api/signup`. -/
def signup (B : Bcrypt) (env : Env) (s : Store) (body : Body) : Store × Response :=
  if !truthy body.username || !truthy body.email || !truthy body.password then
    (s, fail 400 "All fields are required.")
  else if env.dbFail 0 then
    (s, fail 500 "An error occurred.")
  else
    let existingUser := selectUsersByEmail s body.email
    if existingUser.length > 0 then
      (s, fail 400 "Email already exists!")
    else
      let hashedPassword := B.hash (body.password.getD "") env.salt
      if env.dbFail 1 then
        (s, fail 500 "An error occurred.")
      else
        (insertUser s (body.username.getD "") (body.email.getD "") hashedPassword,
          ok "User created successfully!")

/-- The handler of `POST /api/login`. -/
def login (B : Bcrypt) (env : Env) (s : Store) (body : Body) : Store × Response :=
  if !truthy body.email || !truthy body.password then
    (s, fail 400 "Email and password are required.")
  else if env.dbFail 0 then
    (s, fail 500 "An error occurred.")
  else
    match selectUsersByEmail s body.email with
    | [] => (s, fail 400 "Invalid email or password")
    | user :: _ =>
      let isPasswordMatch := B.compare (body.password.getD "") user.password
      if !isPasswordMatch then
        (s, fail 400 "Invalid email or password")
      else
        (s, ok "Login successful")

/-- The reset link of the forgot-password mail. -/
def resetLink (token : String) : String :=
  "http://localhost:3000/reset-password?token=" ++ token

/-- The argument `forgot-password` passes to `transporter.sendMail`. -/
def resetMail (env : Env) (email token : String) : Mail :=
  { sender := "\"Support Team\" <" ++ env.emailUser ++ ">"
    recipient := email
    subject := "Password Reset Request"
    html := "<p>Click the link below to reset your password:</p><a href=\"" ++
      resetLink token ++ "\">" ++ resetLink token ++ "</a>" }

/-- The handler of `POST /api/forgot-password`. -/
def forgotPassword (env : Env) (s : Store) (body : Body) : Store × Response :=
  if env.dbFail 0 then
    (s, fail 500 "An error occurred.")
  else
    match body.email, selectUsersByEmail s body.email with
    | none, _ => (s, fail 404 "Email not found!")
    | some _, [] => (s, fail 404 "Email not found!")
    | some email, _ :: _ =>
      let token := env.randomBytes
      if env.dbFail 1 then
        (s, fail 500 "An error occurred.")
      else
        let s1 := insertPasswordReset s email token
        let s2 := { s1 with mails := s1.mails ++ [resetMail env email token] }
        if env.mailFail then
          (s2, fail 500 "An error occurred.")
        else
          (s2, ok "Password reset link sent!")

/-- The handler of `POST /api/reset-password`. `bcrypt.hash` rejects when the
password is absent. -/
def resetPassword (B : Bcrypt) (env : Env) (s : Store) (body : Body) : Store × Response :=
  if env.dbFail 0 then
    (s, fail 500 "An error occurred.")
  else
    match selectResetsByToken s body.token with
    | [] => (s, fail 400 "Invalid or expired token!")
    | row :: _ =>
      let email := row.email
      match body.password with
      | none => (s, fail 500 "An error occurred.")
      | some password =>
        let hashedPassword := B.hash password env.salt
        if env.dbFail 1 then
          (s, fail 500 "An error occurred.")
        else
          let s1 := updateUserPassword s hashedPassword email
          if env.dbFail 2 then
            (s1, fail 500 "An error occurred.")
          else
            (deleteResetsByToken s1 body.token, ok "Password reset successful!")

/-! ## The jobs handlers -/

/-- Modelled from the spec: the schema of `jobs` is missing; whether the row `j`
satisfies `id = ?` for the textual parameter `jobId` of the path, which matches
the row whose identifier it is the decimal numeral of. -/
def jobIdMatches (jobId : String) (j : Job) : Bool :=
  jobId.toNat? == some j.id

/-- The handler of the first registration of `GET /api/jobs`. -/
def getJobs (env : Env) (s : Store) : Store × Response :=
  if env.dbFail 0 then
    (s, fail 500 "An error occurred.")
  else
    (s, ⟨200, true, .jobs s.jobs⟩)

/-- The handler of `GET /api/jobs/:id` (registered twice with the same body). -/
def getJob (env : Env) (s : Store) (jobId : String) : Store × Response :=
  if env.dbFail 0 then
    (s, fail 500 "An error occurred.")
  else
    match s.jobs.filter (jobIdMatches jobId) with
    | [] => (s, fail 404 "Job not found!")
    | row :: _ => (s, ⟨200, true, .job row⟩)

/-- The handler of `POST /api/jobs`. -/
def createJob (env : Env) (s : Store) (body : Body) : Store × Response :=
  if !truthy body.title || !truthy body.category then
    (s, fail 400 "Title and category are required.")
  else if env.dbFail 0 then
    (s, fail 500 "An error occurred.")
  else
    ({ s with jobs := s.jobs ++ [⟨nextId (s.jobs.map Job.id), body.title, body.category,
        body.jobCategory, body.salary, body.property, body.benefits, body.location⟩] },
      ok "Job created successfully!")

/-- The handler of `PUT /api/jobs/:id`; `affectedRows` counts the rows the
`WHERE` clause finds. -/
def updateJob (env : Env) (s : Store) (jobId : String) (body : Body) : Store × Response :=
  if env.dbFail 0 then
    (s, fail 500 "An error occurred.")
  else
    let affectedRows := (s.jobs.filter (jobIdMatches jobId)).length
    let s1 := { s with jobs := s.jobs.map (fun j => if jobIdMatches jobId j then
      ⟨j.id, body.title, body.category, body.jobCategory, body.salary, body.property,
        body.benefits, body.location⟩ else j) }
    if affectedRows == 0 then
      (s1, fail 404 "Job not found!")
    else
      (s1, ok "Job updated successfully!")

/-- The handler of `DELETE /api/jobs/:id`. -/
def deleteJob (env : Env) (s : Store) (jobId : String) : Store × Response :=
  if env.dbFail 0 then
    (s, fail 500 "An error occurred.")
  else
    let affectedRows := (s.jobs.filter (jobIdMatches jobId)).length
    let s1 := { s with jobs := s.jobs.filter (fun j => !jobIdMatches jobId j) }
    if affectedRows == 0 then
      (s1, fail 404 "Job not found!")
    else
      (s1, ok "Job deleted successfully!")

/-- The handler of the second registration of `GET /api/jobs`: `page` defaults to
1 and `limit` to 10, the offset is `(page - 1) * limit`, and the query
`SELECT * FROM jobs LIMIT ? OFFSET ?` rejects a negative offset. -/
def getJobsPaginated (env : Env) (s : Store) (query : Query) : Store × Response :=
  let page : Int := query.page.getD 1
  let limit : Int := query.limit.getD 10
  let offset := (page - 1) * limit
  if env.dbFail 0 || offset < 0 then
    (s, fail 500 "Error fetching data")
  else
    (s, ⟨200, true, .jobs ((s.jobs.drop offset.toNat).take limit.toNat)⟩)

/-! ## The application -/

/-- A request: the method, the segments of the path (`/api/jobs/7` is
`["api", "jobs", "7"]`), the body, the query and the outcome of the external calls
made while it is handled. -/
structure Request where
  method : Method
  path : List String
  body : Body
  query : Query
  env : Env

/-- A segment of a route path: a literal or a named parameter such as `:id`. -/
inductive Seg
  | lit (s : String)
  | param (name : String)

/-- Match a path against a route path; the result lists the values of the
parameters. A parameter matches any non-empty segment. -/
def matchPath : List Seg → List String → Option (List String)
  | [], [] => some []
  | .lit s :: ps, x :: xs => if x == s then matchPath ps xs else none
  | .param _ :: ps, x :: xs => if x == "" then none else (matchPath ps xs).map (x :: ·)
  | _, _ => none

/-- A registration `app.METHOD(path, handler)`. The handler receives the values of
the path parameters. -/
structure Route where
  method : Method
  path : List Seg
  handler : Bcrypt → Request → List String → Store → Store × Response

/-- The registrations of `index.js`, in the order of the file. -/
def app : List Route :=
  [ ⟨.POST, [.lit "api", .lit "signup"], fun B req _ s => signup B req.env s req.body⟩,
    ⟨.POST, [.lit "api", .lit "login"], fun B req _ s => login B req.env s req.body⟩,
    ⟨.POST, [.lit "api", .lit "forgot-password"], fun _ req _ s => forgotPassword req.env s req.body⟩,
    ⟨.POST, [.lit "api", .lit "reset-password"], fun B req _ s => resetPassword B req.env s req.body⟩,
    ⟨.GET, [.lit "api", .lit "jobs"], fun _ req _ s => getJobs req.env s⟩,
    ⟨.GET, [.lit "api", .lit "jobs", .param "id"], fun _ req ps s => getJob req.env s (ps.headD "")⟩,
    ⟨.POST, [.lit "api", .lit "jobs"], fun _ req _ s => createJob req.env s req.body⟩,
    ⟨.PUT, [.lit "api", .lit "jobs", .param "id"], fun _ req ps s => updateJob req.env s (ps.headD "") req.body⟩,
    ⟨.DELETE, [.lit "api", .lit "jobs", .param "id"], fun _ req ps s => deleteJob req.env s (ps.headD "")⟩,
    ⟨.GET, [.lit "api", .lit "jobs", .param "id"], fun _ req ps s => getJob req.env s (ps.headD "")⟩,
    ⟨.GET, [.lit "api", .lit "jobs"], fun _ req _ s => getJobsPaginated req.env s req.query⟩ ]

/-- Run the handler of a route on a request it matches; `none` when the method or
the path does not match. -/
def Route.run (B : Bcrypt) (s : Store) (req : Request) (r : Route) : Option (Store × Response) :=
  if r.method = req.method then
    (matchPath r.path req.path).map (fun ps => r.handler B req ps s)
  else
    none

/-- Dispatch a request over a list of registrations: they are tried in order, and
since every handler of `index.js` responds without calling `next`, the first one
that matches produces the response. `none` when no registration matches. -/
def dispatch (routes : List Route) (B : Bcrypt) (s : Store) (req : Request) :
    Option (Store × Response) :=
  routes.findSome? (Route.run B s req)

/-- The application handling one request. -/
def handle (B : Bcrypt) (s : Store) (req : Request) : Option (Store × Response) :=
  dispatch app B s req

/-- The store after one request has run to completion; a request that no
registration matches changes nothing. -/
def step (B : Bcrypt) (s : Store) (req : Request) : Store :=
  match handle B s req with
  | some (s1, _) => s1
  | none => s

/-- The store after a sequence of requests, each run to completion before the
next. -/
def run (B : Bcrypt) (s : Store) (reqs : List Request) : Store :=
  reqs.foldl (step B) s

/-! ## Invariants -/

/-- The part of a users row no handler rewrites. -/
def User.key (u : User) : Nat × String × String :=
  (u.id, u.username, u.email)

/-- What one request may do to the users table: keep the identifier, username
and email of every row in place, or add one row at the end whose email no row
had. -/
def UsersKept (s t : Store) : Prop :=
  t.users.map User.key = s.users.map User.key ∨
    ∃ u, t.users = s.users ++ [u] ∧ ∀ v ∈ s.users, v.email ≠ u.email

/-! ## Fixtures for the examples -/

/-- A body with every field absent. -/
def noBody : Body :=
  ⟨none, none, none, none, none, none, none, none, none, none, none⟩

/-- The body `{ username, email, password }`. -/
def signupBody (username email password : String) : Body :=
  { noBody with username := some username, email := some email, password := some password }

/-- The body `{ email, password }`. -/
def loginBody (email password : String) : Body :=
  { noBody with email := some email, password := some password }

/-- The body `{ email }`. -/
def forgotBody (email : String) : Body :=
  { noBody with email := some email }

/-- The body `{ token, password }`. -/
def resetBody (token password : String) : Body :=
  { noBody with token := some token, password := some password }

/-- A hasher for the examples: the digest is the plaintext. -/
def plainBcrypt : Bcrypt :=
  ⟨fun p _ => p, fun p d => p == d⟩

/-- An environment in which no external call fails. -/
def calm : Env :=
  ⟨fun _ => false, false, 7, "c0ffee", "support@example.com"⟩

/-- A store with the single user alice. -/
def aliceStore : Store :=
  ⟨[⟨1, "alice", "a@x.com", "pw1"⟩], [], [], []⟩

/-- A store in which the token `c0ffee` stands for the email of alice. -/
def aliceTokenStore : Store :=
  ⟨[⟨1, "alice", "a@x.com", "pw1"⟩], [⟨"a@x.com", "c0ffee"⟩], [], []⟩

/-- An environment in which the second query of the request fails. -/
def secondQueryFails : Env :=
  ⟨fun k => k == 1, false, 7, "c0ffee", "support@example.com"⟩

/-- An environment in which only `sendMail` fails. -/
def mailDown : Env :=
  ⟨fun _ => false, true, 7, "c0ffee", "support@example.com"⟩

/-- A store with alice and bob, and the token `c0ffee` for the email of alice. -/
def twoUserStore : Store :=
  ⟨[⟨1, "alice", "a@x.com", "pw1"⟩, ⟨2, "bob", "b@x.com", "pwb"⟩], [⟨"a@x.com", "c0ffee"⟩], [], []⟩

/-- A jobs row with only a title and a category. -/
def plainJob (id : Nat) : Job :=
  ⟨id, some "clerk", some "office", none, none, none, none, none⟩

/-- A store whose jobs table has the eleven rows of identifiers 1 to 11. -/
def elevenJobs : Store :=
  ⟨[], [], (List.range 11).map (fun i => plainJob (i + 1)), []⟩

/-- The request `GET /api/jobs?page=2&limit=10`. -/
def secondPage : Request :=
  ⟨.GET, ["api", "jobs"], noBody, ⟨some 2, some 10⟩, calm⟩

/-- A request with the given method, path and body, no query and no failing
external call. -/
def request (method : Method) (path : List String) (body : Body) : Request :=
  ⟨method, path, body, ⟨none, none⟩, calm⟩

/-- A session on the store of alice: bob signs up, a second signup reuses the
email of alice, alice asks for a token and resets her password, then the jobs
routes are visited. -/
def session : List Request :=
  [ request .POST ["api", "signup"] (signupBody "bob" "b@x.com" "pwb"),
    request .POST ["api", "signup"] (signupBody "eve" "a@x.com" "pwe"),
    request .POST ["api", "forgot-password"] (forgotBody "a@x.com"),
    request .POST ["api", "reset-password"] (resetBody "c0ffee" "pw2"),
    request .POST ["api", "login"] (loginBody "a@x.com" "pw2"),
    request .POST ["api", "jobs"] { noBody with title := some "clerk", category := some "office" },
    request .GET ["api", "jobs"] noBody,
    request .DELETE ["api", "jobs", "1"] noBody ]

/-! ## Lemmas on the queries -/

theorem truthy_some (x : String) : truthy (some x) = true ↔ x ≠ "" := by
  simp [truthy]

theorem selectUsersByEmail_eq_nil (s : Store) (e : String) :
    selectUsersByEmail s (some e) = [] ↔ ∀ u ∈ s.users, u.email ≠ e := by
  simp [selectUsersByEmail, List.filter_eq_nil_iff]

/-! ## Login -/

/-- C2. Login non-disclosure: for non-empty emails and passwords, the login
response (status, success flag and message) for an email that is registered but
whose stored hash the password does not verify against is the response for an
email that no user has, the lookup query having the same outcome; when the lookup
does not fail both are 400 "Invalid email or password"; the store is unchanged in
both cases. -/
theorem login_non_disclosure (B : Bcrypt) (env : Env) (s : Store) (b1 b2 : Body)
    (e1 e2 pw1 pw2 : String) (u : User)
    (hb1e : b1.email = some e1) (hb1p : b1.password = some pw1)
    (hb2e : b2.email = some e2) (hb2p : b2.password = some pw2)
    (he1 : e1 ≠ "") (he2 : e2 ≠ "") (hpw1 : pw1 ≠ "") (hpw2 : pw2 ≠ "")
    (hreg : (selectUsersByEmail s (some e1)).head? = some u)
    (hbad : B.compare pw1 u.password = false)
    (habsent : ∀ v ∈ s.users, v.email ≠ e2) :
    (login B env s b1).2 = (login B env s b2).2 ∧
      (env.dbFail 0 = false → (login B env s b1).2 = fail 400 "Invalid email or password") ∧
      (login B env s b1).1 = s ∧ (login B env s b2).1 = s := by
  have h2 : selectUsersByEmail s (some e2) = [] := (selectUsersByEmail_eq_nil s e2).2 habsent
  cases hsel : selectUsersByEmail s (some e1) with
  | nil => simp [hsel] at hreg
  | cons v rest =>
    have hv : v = u := by simpa [hsel] using hreg
    subst hv
    by_cases hf : env.dbFail 0 = true <;>
      simp [login, truthy, hb1e, hb1p, hb2e, hb2p, he1, he2, hpw1, hpw2, hsel, h2, hbad, hf]

/-- Witness of C2 on the store of alice: a wrong password for her email and any
password for an unknown email get the same response. -/
theorem login_non_disclosure_witness :
    (login plainBcrypt calm aliceStore (loginBody "a@x.com" "wrong")).2 =
        (login plainBcrypt calm aliceStore (loginBody "nobody@x.com" "pw1")).2 ∧
      (login plainBcrypt calm aliceStore (loginBody "a@x.com" "wrong")).2 =
        fail 400 "Invalid email or password" ∧
      (login plainBcrypt calm aliceStore (loginBody "a@x.com" "wrong")).1 = aliceStore ∧
      (login plainBcrypt calm aliceStore (loginBody "nobody@x.com" "pw1")).1 = aliceStore :=
  have h := login_non_disclosure plainBcrypt calm aliceStore (loginBody "a@x.com" "wrong")
    (loginBody "nobody@x.com" "pw1") "a@x.com" "nobody@x.com" "wrong" "pw1"
    ⟨1, "alice", "a@x.com", "pw1"⟩ rfl rfl rfl rfl (by decide) (by decide) (by decide)
    (by decide) (by decide) (by decide) (by decide)
  ⟨h.1, h.2.1 rfl, h.2.2.1, h.2.2.2⟩

/-! ## Signup -/

theorem selectUsersByEmail_insertUser_fresh (s : Store) (username e password : String)
    (hfresh : ∀ u ∈ s.users, u.email ≠ e) :
    selectUsersByEmail (insertUser s username e password) (some e) =
      [⟨nextId (s.users.map User.id), username, e, password⟩] := by
  have h : s.users.filter (fun u => u.email == e) = [] := by
    simpa [List.filter_eq_nil_iff] using hfresh
  simp [selectUsersByEmail, insertUser, List.filter_append, h]

/-- C3. Signup then login: with non-empty username, email and password, an email
no user has, a hasher whose digests verify and no failing query, signup responds
success and a login with the same email and password on the resulting store
responds success. -/
theorem signup_then_login (B : Bcrypt) (env1 env2 : Env) (s : Store) (b1 b2 : Body)
    (username email password : String)
    (hB : ∀ p salt, p ≠ "" → B.compare p (B.hash p salt) = true)
    (hb1u : b1.username = some username) (hb1e : b1.email = some email)
    (hb1p : b1.password = some password)
    (hb2e : b2.email = some email) (hb2p : b2.password = some password)
    (hu : username ≠ "") (he : email ≠ "") (hp : password ≠ "")
    (hfresh : ∀ u ∈ s.users, u.email ≠ email)
    (hok1 : ∀ k, env1.dbFail k = false) (hok2 : ∀ k, env2.dbFail k = false) :
    (signup B env1 s b1).2 = ok "User created successfully!" ∧
      (login B env2 (signup B env1 s b1).1 b2).2 = ok "Login successful" := by
  have hnil : selectUsersByEmail s (some email) = [] := (selectUsersByEmail_eq_nil s email).2 hfresh
  have hs : signup B env1 s b1 =
      (insertUser s username email (B.hash password env1.salt), ok "User created successfully!") := by
    simp [signup, truthy, hb1u, hb1e, hb1p, hu, he, hp, hok1, hnil]
  refine ⟨by rw [hs], ?_⟩
  rw [hs]
  simp [login, truthy, hb2e, hb2p, he, hp, hok2,
    selectUsersByEmail_insertUser_fresh s username email _ hfresh, hB password env1.salt hp]

/-- Witness of C3: bob signs up on the store of alice and logs in. -/
theorem signup_then_login_witness :
    (signup plainBcrypt calm aliceStore (signupBody "bob" "b@x.com" "pw2")).2 =
        ok "User created successfully!" ∧
      (login plainBcrypt calm
        (signup plainBcrypt calm aliceStore (signupBody "bob" "b@x.com" "pw2")).1
        (loginBody "b@x.com" "pw2")).2 = ok "Login successful" :=
  signup_then_login plainBcrypt calm calm aliceStore (signupBody "bob" "b@x.com" "pw2")
    (loginBody "b@x.com" "pw2") "bob" "b@x.com" "pw2"
    (by intro p salt _; simp [plainBcrypt]) rfl rfl rfl rfl rfl
    (by decide) (by decide) (by decide) (by decide) (fun _ => rfl) (fun _ => rfl)

/-- A signup with the email of an existing user leaves the store as it is. -/
theorem signup_existing_store (B : Bcrypt) (env : Env) (s : Store) (b : Body) (e : String)
    (hbe : b.email = some e) (hdup : ∃ u ∈ s.users, u.email = e) :
    (signup B env s b).1 = s := by
  have hne : selectUsersByEmail s (some e) ≠ [] := by
    rw [Ne, selectUsersByEmail_eq_nil]
    obtain ⟨u, hu, hue⟩ := hdup
    exact fun h => h u hu hue
  have hlen : 0 < (selectUsersByEmail s (some e)).length := List.length_pos.2 hne
  unfold signup
  simp only [hbe]
  split_ifs <;> simp_all

/-- A signup with the email of an existing user, the three fields non-empty and
the lookup not failing, is answered 400 "Email already exists!". -/
theorem signup_existing_response (B : Bcrypt) (env : Env) (s : Store) (b : Body) (e : String)
    (hbe : b.email = some e) (hdup : ∃ u ∈ s.users, u.email = e) :
    truthy b.username = true → e ≠ "" → truthy b.password = true → env.dbFail 0 = false →
      (signup B env s b).2 = fail 400 "Email already exists!" := by
  have hne : selectUsersByEmail s (some e) ≠ [] := by
    rw [Ne, selectUsersByEmail_eq_nil]
    obtain ⟨u, hu, hue⟩ := hdup
    exact fun h => h u hu hue
  have hlen : 0 < (selectUsersByEmail s (some e)).length := List.length_pos.2 hne
  intro hu he hp hok
  have hte : truthy (some e) = true := (truthy_some e).2 he
  simp [signup, hbe, hu, hp, hok, hte, hlen]

/-- C4, counterexample. On the store of alice, a signup with her email and the
empty password is answered 400 "All fields are required.", not "Email already
exists!". -/
theorem signup_duplicate_email_empty_password :
    (∃ u ∈ aliceStore.users, u.email = "a@x.com") ∧
      signup plainBcrypt calm aliceStore (signupBody "bob" "a@x.com" "") =
        (aliceStore, fail 400 "All fields are required.") ∧
      (signup plainBcrypt calm aliceStore (signupBody "bob" "a@x.com" "")).2 ≠
        fail 400 "Email already exists!" := by
  decide

/-- C4, amended. A signup with the email of an existing user never changes the
store, and when username, email and password are non-empty and the lookup does not
fail it is answered 400 "Email already exists!", whatever the password. -/
theorem signup_duplicate_email (B : Bcrypt) (env : Env) (s : Store) (b : Body) (e : String)
    (hbe : b.email = some e) (hdup : ∃ u ∈ s.users, u.email = e) :
    (signup B env s b).1 = s ∧
      (truthy b.username = true → e ≠ "" → truthy b.password = true → env.dbFail 0 = false →
        (signup B env s b).2 = fail 400 "Email already exists!") := by
  exact ⟨signup_existing_store B env s b e hbe hdup, signup_existing_response B env s b e hbe hdup⟩

/-- Witness of C4 (amended) on the store of alice. -/
theorem signup_duplicate_email_witness :
    (signup plainBcrypt calm aliceStore (signupBody "bob" "a@x.com" "pw9")).1 = aliceStore ∧
      (signup plainBcrypt calm aliceStore (signupBody "bob" "a@x.com" "pw9")).2 =
        fail 400 "Email already exists!" :=
  have h := signup_duplicate_email plainBcrypt calm aliceStore (signupBody "bob" "a@x.com" "pw9")
    "a@x.com" rfl (by decide)
  ⟨h.1, h.2 (by decide) (by decide) (by decide) rfl⟩

/-- C8, counterexample. On the store of alice two signups fail with status 400,
one for a missing password and one for her registered email, and their messages
differ. -/
theorem signup_messages_not_generic :
    (signup plainBcrypt calm aliceStore (signupBody "bob" "a@x.com" "")).2 =
        fail 400 "All fields are required." ∧
      (signup plainBcrypt calm aliceStore (signupBody "bob" "a@x.com" "pw9")).2 =
        fail 400 "Email already exists!" ∧
      (signup plainBcrypt calm aliceStore (signupBody "bob" "a@x.com" "")).2.payload ≠
        (signup plainBcrypt calm aliceStore (signupBody "bob" "a@x.com" "pw9")).2.payload := by
  decide

/-- C8, amended. Signup answers its two 400 causes with different messages: a
missing field with "All fields are required." and, when the fields are present and
the lookup does not fail, a registered email with "Email already exists!"; with an
email no user has and no failing query it succeeds, so the response tells a
registered email from an unregistered one. -/
theorem signup_discloses_registration (B : Bcrypt) (env : Env) (s : Store) (b0 b1 b2 : Body)
    (e1 e2 : String)
    (hmiss : truthy b0.username = false ∨ truthy b0.email = false ∨ truthy b0.password = false)
    (hb1 : truthy b1.username = true ∧ b1.email = some e1 ∧ e1 ≠ "" ∧ truthy b1.password = true)
    (hb2 : truthy b2.username = true ∧ b2.email = some e2 ∧ e2 ≠ "" ∧ truthy b2.password = true)
    (hreg : ∃ u ∈ s.users, u.email = e1) (hfresh : ∀ u ∈ s.users, u.email ≠ e2)
    (hok : ∀ k, env.dbFail k = false) :
    (signup B env s b0).2 = fail 400 "All fields are required." ∧
      (signup B env s b1).2 = fail 400 "Email already exists!" ∧
      (signup B env s b2).2 = ok "User created successfully!" ∧
      (signup B env s b0).2 ≠ (signup B env s b1).2 ∧
      (signup B env s b1).2 ≠ (signup B env s b2).2 := by
  obtain ⟨h1u, h1e, h1n, h1p⟩ := hb1
  obtain ⟨h2u, h2e, h2n, h2p⟩ := hb2
  have r0 : (signup B env s b0).2 = fail 400 "All fields are required." := by
    unfold signup
    rcases hmiss with h | h | h <;> simp [h]
  have r1 : (signup B env s b1).2 = fail 400 "Email already exists!" :=
    signup_existing_response B env s b1 e1 h1e hreg h1u h1n h1p (hok 0)
  have hnil : selectUsersByEmail s (some e2) = [] := (selectUsersByEmail_eq_nil s e2).2 hfresh
  have r2 : (signup B env s b2).2 = ok "User created successfully!" := by
    have hte : truthy (some e2) = true := (truthy_some e2).2 h2n
    simp [signup, h2u, h2e, h2p, hok, hnil, hte]
  refine ⟨r0, r1, r2, ?_, ?_⟩
  · rw [r0, r1]; decide
  · rw [r1, r2]; decide

/-- Witness of C8 (amended) on the store of alice. -/
theorem signup_discloses_registration_witness :
    (signup plainBcrypt calm aliceStore (signupBody "bob" "" "pw9")).2 =
        fail 400 "All fields are required." ∧
      (signup plainBcrypt calm aliceStore (signupBody "bob" "a@x.com" "pw9")).2 =
        fail 400 "Email already exists!" ∧
      (signup plainBcrypt calm aliceStore (signupBody "bob" "b@x.com" "pw9")).2 =
        ok "User created successfully!" ∧
      (signup plainBcrypt calm aliceStore (signupBody "bob" "" "pw9")).2 ≠
        (signup plainBcrypt calm aliceStore (signupBody "bob" "a@x.com" "pw9")).2 ∧
      (signup plainBcrypt calm aliceStore (signupBody "bob" "a@x.com" "pw9")).2 ≠
        (signup plainBcrypt calm aliceStore (signupBody "bob" "b@x.com" "pw9")).2 :=
  signup_discloses_registration plainBcrypt calm aliceStore (signupBody "bob" "" "pw9")
    (signupBody "bob" "a@x.com" "pw9") (signupBody "bob" "b@x.com" "pw9") "a@x.com" "b@x.com"
    (by decide) (by decide) (by decide) (by decide) (by decide) (fun _ => rfl)

/-! ## Forgot password and reset password -/

theorem selectResetsByToken_ne_nil (s : Store) (T : String)
    (h : ∃ r ∈ s.password_resets, r.token = T) : selectResetsByToken s (some T) ≠ [] := by
  obtain ⟨r, hr, hT⟩ := h
  intro hnil
  have : ∀ r ∈ s.password_resets, r.token ≠ T := by
    simpa [selectResetsByToken, List.filter_eq_nil_iff] using hnil
  exact this r hr hT

theorem selectResetsByToken_delete (s : Store) (T : String) :
    selectResetsByToken (deleteResetsByToken s (some T)) (some T) = [] := by
  simp [selectResetsByToken, deleteResetsByToken, List.filter_eq_nil_iff]

/-- A reset with a known token, a password and no failing query: the response
and the store it leaves. -/
theorem resetPassword_ok (B : Bcrypt) (env : Env) (s : Store) (b : Body) (T pw : String)
    (row : PasswordReset) (rest : List PasswordReset)
    (hbt : b.token = some T) (hbp : b.password = some pw)
    (hsel : selectResetsByToken s (some T) = row :: rest) (hok : ∀ k, env.dbFail k = false) :
    resetPassword B env s b =
      (deleteResetsByToken (updateUserPassword s (B.hash pw env.salt) row.email) (some T),
        ok "Password reset successful!") := by
  simp [resetPassword, hbt, hbp, hsel, hok]

/-- A reset with a token of no row: 400, store unchanged. -/
theorem resetPassword_unknown (B : Bcrypt) (env : Env) (s : Store) (b : Body)
    (hsel : selectResetsByToken s b.token = []) (hok : env.dbFail 0 = false) :
    resetPassword B env s b = (s, fail 400 "Invalid or expired token!") := by
  simp [resetPassword, hsel, hok]

/-- C1. Reset tokens are single-use: in a store where forgot-password issued the
token T for a registered email, if no query fails the first reset-password with T
responds success and leaves no password_resets row with token T (the other rows
stay), and a second reset-password with T, whatever password it carries, responds
400 "Invalid or expired token!" and leaves the store, so the users table,
unchanged. -/
theorem reset_token_single_use (B : Bcrypt) (env1 env2 : Env) (s : Store) (b1 b2 : Body)
    (e T pw : String)
    (hb1t : b1.token = some T) (hb1p : b1.password = some pw) (hb2t : b2.token = some T)
    (hreg : ∃ u ∈ s.users, u.email = e) (hissued : ⟨e, T⟩ ∈ s.password_resets)
    (hok1 : ∀ k, env1.dbFail k = false) (hok2 : ∀ k, env2.dbFail k = false) :
    (resetPassword B env1 s b1).2 = ok "Password reset successful!" ∧
      (∀ r ∈ (resetPassword B env1 s b1).1.password_resets, r.token ≠ T) ∧
      (resetPassword B env1 s b1).1.password_resets =
        s.password_resets.filter (fun r => !(r.token == T)) ∧
      (resetPassword B env2 (resetPassword B env1 s b1).1 b2).2 =
        fail 400 "Invalid or expired token!" ∧
      (resetPassword B env2 (resetPassword B env1 s b1).1 b2).1 =
        (resetPassword B env1 s b1).1 := by
  have _ := hreg
  have hne : selectResetsByToken s (some T) ≠ [] :=
    selectResetsByToken_ne_nil s T ⟨⟨e, T⟩, hissued, rfl⟩
  obtain ⟨row, rest, hsel⟩ := List.exists_cons_of_ne_nil hne
  have h1 := resetPassword_ok B env1 s b1 T pw row rest hb1t hb1p hsel hok1
  have h2 := resetPassword_unknown B env2
    (deleteResetsByToken (updateUserPassword s (B.hash pw env1.salt) row.email) (some T)) b2
    (by rw [hb2t]; exact selectResetsByToken_delete _ T) (hok2 0)
  rw [h1, h2]
  refine ⟨rfl, ?_, ?_, rfl, rfl⟩
  · simp [deleteResetsByToken, updateUserPassword]
  · simp [deleteResetsByToken, updateUserPassword]

/-- Witness of C1: the token issued to alice by forgot-password is accepted
once. -/
theorem reset_token_single_use_witness :
    (resetPassword plainBcrypt calm (forgotPassword calm aliceStore (forgotBody "a@x.com")).1
        (resetBody "c0ffee" "pw2")).2 = ok "Password reset successful!" ∧
      (resetPassword plainBcrypt calm
        (resetPassword plainBcrypt calm (forgotPassword calm aliceStore (forgotBody "a@x.com")).1
          (resetBody "c0ffee" "pw2")).1 (resetBody "c0ffee" "pw3")).2 =
        fail 400 "Invalid or expired token!" :=
  have h := reset_token_single_use plainBcrypt calm calm
    (forgotPassword calm aliceStore (forgotBody "a@x.com")).1
    (resetBody "c0ffee" "pw2") (resetBody "c0ffee" "pw3") "a@x.com" "c0ffee" "pw2"
    rfl rfl rfl (by decide) (by decide) (fun _ => rfl) (fun _ => rfl)
  ⟨h.1, h.2.2.2.1⟩

/-- C7. The password is updated before the token is consumed: when the token T
resolves to an email and the UPDATE of users fails, reset-password responds 500
and leaves the store unchanged, so T still resolves to the same email, and a
later reset-password with T and no failing query succeeds. -/
theorem reset_update_failure_keeps_token (B : Bcrypt) (env1 env2 : Env) (s : Store) (b : Body)
    (e T pw : String)
    (hbt : b.token = some T) (hbp : b.password = some pw)
    (hres : resolveToken s T = some e)
    (hsel : env1.dbFail 0 = false) (hupd : env1.dbFail 1 = true)
    (hok2 : ∀ k, env2.dbFail k = false) :
    (resetPassword B env1 s b).2 = fail 500 "An error occurred." ∧
      (resetPassword B env1 s b).1.password_resets = s.password_resets ∧
      (resetPassword B env1 s b).1 = s ∧
      resolveToken (resetPassword B env1 s b).1 T = some e ∧
      (resetPassword B env2 (resetPassword B env1 s b).1 b).2 =
        ok "Password reset successful!" := by
  cases hrows : selectResetsByToken s (some T) with
  | nil => simp [resolveToken, hrows] at hres
  | cons row rest =>
    have h1 : resetPassword B env1 s b = (s, fail 500 "An error occurred.") := by
      simp [resetPassword, hbt, hbp, hrows, hsel, hupd]
    have h2 := resetPassword_ok B env2 s b T pw row rest hbt hbp hrows hok2
    rw [h1]
    exact ⟨rfl, rfl, rfl, hres, by rw [h2]⟩

/-- Witness of C7 on the store of alice and her token. -/
theorem reset_update_failure_keeps_token_witness :
    (resetPassword plainBcrypt secondQueryFails aliceTokenStore (resetBody "c0ffee" "pw2")).2 =
        fail 500 "An error occurred." ∧
      (resetPassword plainBcrypt secondQueryFails aliceTokenStore
        (resetBody "c0ffee" "pw2")).1.password_resets = aliceTokenStore.password_resets ∧
      (resetPassword plainBcrypt secondQueryFails aliceTokenStore (resetBody "c0ffee" "pw2")).1 =
        aliceTokenStore ∧
      resolveToken (resetPassword plainBcrypt secondQueryFails aliceTokenStore
        (resetBody "c0ffee" "pw2")).1 "c0ffee" = some "a@x.com" ∧
      (resetPassword plainBcrypt calm
        (resetPassword plainBcrypt secondQueryFails aliceTokenStore (resetBody "c0ffee" "pw2")).1
        (resetBody "c0ffee" "pw2")).2 = ok "Password reset successful!" :=
  reset_update_failure_keeps_token plainBcrypt secondQueryFails calm aliceTokenStore
    (resetBody "c0ffee" "pw2") "a@x.com" "c0ffee" "pw2" rfl rfl (by decide) rfl rfl (fun _ => rfl)

/-- A forgot-password for the email of an existing user whose two queries do not
fail: the store it leaves. -/
theorem forgotPassword_issues (env : Env) (s : Store) (b : Body) (e : String)
    (hbe : b.email = some e) (hreg : ∃ u ∈ s.users, u.email = e)
    (hsel : env.dbFail 0 = false) (hins : env.dbFail 1 = false) :
    (forgotPassword env s b).1 =
        { s with password_resets := s.password_resets ++ [⟨e, env.randomBytes⟩]
                 mails := s.mails ++ [resetMail env e env.randomBytes] } ∧
      (forgotPassword env s b).2 =
        if env.mailFail then fail 500 "An error occurred." else ok "Password reset link sent!" := by
  have hne : selectUsersByEmail s (some e) ≠ [] := by
    rw [Ne, selectUsersByEmail_eq_nil]
    obtain ⟨u, hu, hue⟩ := hreg
    exact fun h => h u hu hue
  obtain ⟨u, rest, hrows⟩ := List.exists_cons_of_ne_nil hne
  unfold forgotPassword
  simp only [hbe, hrows, hsel, hins]
  cases env.mailFail <;> simp [insertPasswordReset]

/-- A forgot-password for an email no user has changes nothing, and is answered
404 when its lookup does not fail. -/
theorem forgotPassword_unknown (env : Env) (s : Store) (b : Body)
    (habsent : ∀ e, b.email = some e → ∀ u ∈ s.users, u.email ≠ e) :
    (forgotPassword env s b).1 = s ∧
      (env.dbFail 0 = false → (forgotPassword env s b).2 = fail 404 "Email not found!") := by
  cases hbe : b.email with
  | none =>
    unfold forgotPassword
    cases env.dbFail 0 <;> simp [hbe]
  | some e =>
    have hnil : selectUsersByEmail s (some e) = [] :=
      (selectUsersByEmail_eq_nil s e).2 (habsent e hbe)
    unfold forgotPassword
    cases env.dbFail 0 <;> simp [hbe, hnil]

/-- C10. Forgot-password does not roll back the token when the notification
fails: for a registered email, when the lookup and the insert succeed and
`sendMail` fails, the response is 500 "An error occurred.", password_resets has
gained the row of the email and the new token, and a later reset-password with
that token and no failing query succeeds. For an email no user has the store is
unchanged (no token inserted, no call of `sendMail`) and, the lookup not failing,
the response is 404 "Email not found!". -/
theorem forgot_password_no_rollback (B : Bcrypt) (env env2 env3 : Env) (s : Store)
    (b b2 b3 : Body) (e pw : String)
    (hbe : b.email = some e) (hreg : ∃ u ∈ s.users, u.email = e)
    (hsel : env.dbFail 0 = false) (hins : env.dbFail 1 = false) (hmail : env.mailFail = true)
    (hb2t : b2.token = some env.randomBytes) (hb2p : b2.password = some pw)
    (hok2 : ∀ k, env2.dbFail k = false)
    (habsent : ∀ e3, b3.email = some e3 → ∀ u ∈ s.users, u.email ≠ e3) :
    (forgotPassword env s b).2 = fail 500 "An error occurred." ∧
      (forgotPassword env s b).1.password_resets =
        s.password_resets ++ [⟨e, env.randomBytes⟩] ∧
      (resetPassword B env2 (forgotPassword env s b).1 b2).2 = ok "Password reset successful!" ∧
      (forgotPassword env3 s b3).1 = s ∧
      (env3.dbFail 0 = false → (forgotPassword env3 s b3).2 = fail 404 "Email not found!") := by
  obtain ⟨hs, hr⟩ := forgotPassword_issues env s b e hbe hreg hsel hins
  have hne : selectResetsByToken (forgotPassword env s b).1 (some env.randomBytes) ≠ [] := by
    apply selectResetsByToken_ne_nil
    exact ⟨⟨e, env.randomBytes⟩, by rw [hs]; simp, rfl⟩
  obtain ⟨row, rest, hrows⟩ := List.exists_cons_of_ne_nil hne
  have h2 := resetPassword_ok B env2 _ b2 env.randomBytes pw row rest hb2t hb2p hrows hok2
  obtain ⟨h3, h4⟩ := forgotPassword_unknown env3 s b3 habsent
  refine ⟨by rw [hr, hmail]; rfl, by rw [hs], by rw [h2], h3, h4⟩

/-- Witness of C10 on the store of alice, with the mail transport down. -/
theorem forgot_password_no_rollback_witness :
    (forgotPassword mailDown aliceStore (forgotBody "a@x.com")).2 =
        fail 500 "An error occurred." ∧
      (forgotPassword mailDown aliceStore (forgotBody "a@x.com")).1.password_resets =
        aliceStore.password_resets ++ [⟨"a@x.com", mailDown.randomBytes⟩] ∧
      (resetPassword plainBcrypt calm (forgotPassword mailDown aliceStore (forgotBody "a@x.com")).1
        (resetBody "c0ffee" "pw2")).2 = ok "Password reset successful!" ∧
      (forgotPassword mailDown aliceStore (forgotBody "nobody@x.com")).1 = aliceStore ∧
      (forgotPassword mailDown aliceStore (forgotBody "nobody@x.com")).2 =
        fail 404 "Email not found!" :=
  have h := forgot_password_no_rollback plainBcrypt mailDown calm mailDown aliceStore
    (forgotBody "a@x.com") (resetBody "c0ffee" "pw2") (forgotBody "nobody@x.com") "a@x.com" "pw2"
    rfl (by decide) rfl rfl rfl rfl rfl (fun _ => rfl)
    (by intro e3 h3; cases h3; decide)
  ⟨h.1, h.2.1, h.2.2.1, h.2.2.2.1, h.2.2.2.2 rfl⟩

theorem selectUsersByEmail_update (s : Store) (h e : String) :
    selectUsersByEmail (updateUserPassword s h e) (some e) =
      (selectUsersByEmail s (some e)).map (fun u => { u with password := h }) := by
  simp only [selectUsersByEmail, updateUserPassword]
  induction s.users with
  | nil => rfl
  | cons u us ih =>
    by_cases hu : u.email = e
    · simp only [List.map_cons, List.filter_cons, beq_iff_eq] at ih ⊢
      simp [hu, ih]
    · simp only [List.map_cons, List.filter_cons, beq_iff_eq] at ih ⊢
      simp [hu, ih]

/-- C5. A successful reset replaces the credential: let a user be registered with
email e and password pw1 (both non-empty, as signup requires), let forgot-password
have issued the token T for e, no row with token T standing for another email,
and let pw2 be non-empty and different from pw1. With a hasher whose digests
verify their own plaintext and no other, and no failing query, reset-password with
T and pw2 succeeds; afterwards login with e and pw1 is answered 400 "Invalid email
or password", login with e and pw2 succeeds, and the users table has the same rows
in the same order, those of another email unchanged. -/
theorem reset_replaces_credential (B : Bcrypt) (envR envL1 envL2 : Env) (s : Store)
    (bR bL1 bL2 : Body) (e T pw1 pw2 : String) (u : User) (salt1 : Nat)
    (hB1 : ∀ p salt, p ≠ "" → B.compare p (B.hash p salt) = true)
    (hB2 : ∀ p q salt, p ≠ q → B.compare p (B.hash q salt) = false)
    (hu : u ∈ s.users) (hue : u.email = e) (hup : u.password = B.hash pw1 salt1)
    (he : e ≠ "") (hpw1 : pw1 ≠ "")
    (hissued : ⟨e, T⟩ ∈ s.password_resets)
    (huniq : ∀ r ∈ s.password_resets, r.token = T → r.email = e)
    (hpw2 : pw2 ≠ "") (hne : pw2 ≠ pw1)
    (hbRt : bR.token = some T) (hbRp : bR.password = some pw2)
    (hb1e : bL1.email = some e) (hb1p : bL1.password = some pw1)
    (hb2e : bL2.email = some e) (hb2p : bL2.password = some pw2)
    (hokR : ∀ k, envR.dbFail k = false) (hokL1 : ∀ k, envL1.dbFail k = false)
    (hokL2 : ∀ k, envL2.dbFail k = false) :
    (resetPassword B envR s bR).2 = ok "Password reset successful!" ∧
      (login B envL1 (resetPassword B envR s bR).1 bL1).2 = fail 400 "Invalid email or password" ∧
      (login B envL2 (resetPassword B envR s bR).1 bL2).2 = ok "Login successful" ∧
      List.Forall₂ (fun v w => w.id = v.id ∧ w.username = v.username ∧ w.email = v.email ∧
          (v.email ≠ e → w = v)) s.users (resetPassword B envR s bR).1.users := by
  have _ := hup
  have hne0 : selectResetsByToken s (some T) ≠ [] :=
    selectResetsByToken_ne_nil s T ⟨⟨e, T⟩, hissued, rfl⟩
  obtain ⟨row, rest, hsel⟩ := List.exists_cons_of_ne_nil hne0
  have hrow : row.email = e := by
    have hmem : row ∈ selectResetsByToken s (some T) := by simp [hsel]
    simp only [selectResetsByToken, List.mem_filter, beq_iff_eq] at hmem
    exact huniq row hmem.1 hmem.2
  have hR := resetPassword_ok B envR s bR T pw2 row rest hbRt hbRp hsel hokR
  rw [hrow] at hR
  have hlook : selectUsersByEmail (deleteResetsByToken
      (updateUserPassword s (B.hash pw2 envR.salt) e) (some T)) (some e) =
      (selectUsersByEmail s (some e)).map (fun v => { v with password := B.hash pw2 envR.salt }) := by
    rw [← selectUsersByEmail_update]
    simp [selectUsersByEmail, deleteResetsByToken]
  have hreg : selectUsersByEmail s (some e) ≠ [] := by
    rw [Ne, selectUsersByEmail_eq_nil]
    exact fun h => h u hu hue
  obtain ⟨v, vs, hvs⟩ := List.exists_cons_of_ne_nil hreg
  rw [hR]
  refine ⟨rfl, ?_, ?_, ?_⟩
  · simp [login, truthy, hb1e, hb1p, he, hpw1, hokL1, hlook, hvs,
      hB2 pw1 pw2 envR.salt (Ne.symm hne)]
  · simp [login, truthy, hb2e, hb2p, he, hpw2, hokL2, hlook, hvs, hB1 pw2 envR.salt hpw2]
  · show List.Forall₂ _ s.users (s.users.map _)
    rw [List.forall₂_map_right_iff, List.forall₂_same]
    intro v _
    by_cases hv : v.email = e <;> simp [hv]

/-- Witness of C5: alice resets her password on a store that also holds bob. -/
theorem reset_replaces_credential_witness :
    (resetPassword plainBcrypt calm twoUserStore (resetBody "c0ffee" "pw2")).2 =
        ok "Password reset successful!" ∧
      (login plainBcrypt calm
        (resetPassword plainBcrypt calm twoUserStore (resetBody "c0ffee" "pw2")).1
        (loginBody "a@x.com" "pw1")).2 = fail 400 "Invalid email or password" ∧
      (login plainBcrypt calm
        (resetPassword plainBcrypt calm twoUserStore (resetBody "c0ffee" "pw2")).1
        (loginBody "a@x.com" "pw2")).2 = ok "Login successful" :=
  have h := reset_replaces_credential plainBcrypt calm calm calm twoUserStore
    (resetBody "c0ffee" "pw2") (loginBody "a@x.com" "pw1") (loginBody "a@x.com" "pw2")
    "a@x.com" "c0ffee" "pw1" "pw2" ⟨1, "alice", "a@x.com", "pw1"⟩ 0
    (by intro p salt _; simp [plainBcrypt]) (by intro p q salt hpq; simpa [plainBcrypt] using hpq)
    (by decide) rfl rfl (by decide) (by decide) (by decide) (by decide) (by decide) (by decide)
    rfl rfl rfl rfl rfl rfl (fun _ => rfl) (fun _ => rfl) (fun _ => rfl)
  ⟨h.1, h.2.1, h.2.2.1⟩

/-! ## The step relation -/

theorem UsersKept.of_users_eq {s t : Store} (h : t.users = s.users) : UsersKept s t :=
  Or.inl (by rw [h])

theorem signup_usersKept (B : Bcrypt) (env : Env) (s : Store) (b : Body) :
    UsersKept s (signup B env s b).1 := by
  unfold signup
  dsimp only
  split
  · exact .of_users_eq rfl
  · rename_i h1
    split
    · exact .of_users_eq rfl
    · split
      · exact .of_users_eq rfl
      · rename_i h3
        split
        · exact .of_users_eq rfl
        · right
          refine ⟨_, rfl, ?_⟩
          cases hbe : b.email with
          | none => simp [hbe, truthy] at h1
          | some e =>
            have hnil : selectUsersByEmail s (some e) = [] := by
              rw [hbe] at h3
              simpa using h3
            simpa using (selectUsersByEmail_eq_nil s e).1 hnil

theorem login_store (B : Bcrypt) (env : Env) (s : Store) (b : Body) :
    (login B env s b).1 = s := by
  unfold login
  dsimp only
  repeat' split
  all_goals rfl

theorem forgotPassword_users (env : Env) (s : Store) (b : Body) :
    (forgotPassword env s b).1.users = s.users := by
  unfold forgotPassword
  dsimp only
  repeat' split
  all_goals rfl

theorem resetPassword_usersKept (B : Bcrypt) (env : Env) (s : Store) (b : Body) :
    UsersKept s (resetPassword B env s b).1 := by
  have hupd : ∀ h e, UsersKept s (updateUserPassword s h e) := by
    intro h e
    left
    simp only [updateUserPassword, List.map_map]
    apply List.map_congr_left
    intro u _
    by_cases hu : u.email = e <;> simp [hu, User.key]
  have hdel : ∀ h e T, UsersKept s (deleteResetsByToken (updateUserPassword s h e) T) := by
    intro h e T
    cases T with
    | none => exact hupd h e
    | some T => exact hupd h e
  unfold resetPassword
  dsimp only
  repeat' split
  all_goals first
    | exact .of_users_eq rfl
    | exact hupd _ _
    | exact hdel _ _ _

theorem getJobs_store (env : Env) (s : Store) : (getJobs env s).1 = s := by
  unfold getJobs
  split <;> rfl

theorem getJob_store (env : Env) (s : Store) (jobId : String) : (getJob env s jobId).1 = s := by
  unfold getJob
  repeat' split
  all_goals rfl

theorem getJobsPaginated_store (env : Env) (s : Store) (q : Query) :
    (getJobsPaginated env s q).1 = s := by
  unfold getJobsPaginated
  dsimp only
  split <;> rfl

theorem createJob_users (env : Env) (s : Store) (b : Body) :
    (createJob env s b).1.users = s.users := by
  unfold createJob
  repeat' split
  all_goals rfl

theorem updateJob_users (env : Env) (s : Store) (jobId : String) (b : Body) :
    (updateJob env s jobId b).1.users = s.users := by
  unfold updateJob
  dsimp only
  repeat' split
  all_goals rfl

theorem deleteJob_users (env : Env) (s : Store) (jobId : String) :
    (deleteJob env s jobId).1.users = s.users := by
  unfold deleteJob
  dsimp only
  repeat' split
  all_goals rfl

/-- A response of `dispatch` is the response of the handler of one of the
registrations. -/
theorem dispatch_eq_some (routes : List Route) (B : Bcrypt) (s : Store) (req : Request)
    (r : Store × Response) (h : dispatch routes B s req = some r) :
    ∃ rt ∈ routes, ∃ ps, r = rt.handler B req ps s := by
  induction routes with
  | nil => simp [dispatch] at h
  | cons rt rts ih =>
    simp only [dispatch, List.findSome?_cons] at h
    cases hrun : Route.run B s req rt with
    | none =>
      rw [hrun] at h
      obtain ⟨rt2, hmem, ps, hps⟩ := ih h
      exact ⟨rt2, List.mem_cons_of_mem _ hmem, ps, hps⟩
    | some r2 =>
      rw [hrun] at h
      simp only [Option.some.injEq] at h
      subst h
      refine ⟨rt, List.mem_cons_self _ _, ?_⟩
      unfold Route.run at hrun
      split at hrun
      · cases hm : matchPath rt.path req.path with
        | none => simp [hm] at hrun
        | some ps => exact ⟨ps, by simpa [hm] using hrun.symm⟩
      · cases hrun

theorem app_usersKept (B : Bcrypt) (s : Store) (req : Request) (ps : List String) (rt : Route)
    (h : rt ∈ app) : UsersKept s (rt.handler B req ps s).1 := by
  simp only [app, List.mem_cons, List.mem_singleton, List.not_mem_nil, or_false] at h
  rcases h with h | h | h | h | h | h | h | h | h | h | h <;> subst h <;> dsimp only
  · exact signup_usersKept _ _ _ _
  · exact .of_users_eq (by rw [login_store])
  · exact .of_users_eq (forgotPassword_users _ _ _)
  · exact resetPassword_usersKept _ _ _ _
  · exact .of_users_eq (by rw [getJobs_store])
  · exact .of_users_eq (by rw [getJob_store])
  · exact .of_users_eq (createJob_users _ _ _)
  · exact .of_users_eq (updateJob_users _ _ _ _)
  · exact .of_users_eq (deleteJob_users _ _ _)
  · exact .of_users_eq (by rw [getJob_store])
  · exact .of_users_eq (by rw [getJobsPaginated_store])

theorem step_usersKept (B : Bcrypt) (s : Store) (req : Request) : UsersKept s (step B s req) := by
  unfold step
  cases h : handle B s req with
  | none => exact .of_users_eq rfl
  | some r =>
    obtain ⟨rt, hmem, ps, hps⟩ := dispatch_eq_some app B s req r h
    obtain ⟨s1, resp⟩ := r
    have := app_usersKept B s req ps rt hmem
    rw [← hps] at this
    exact this

theorem UsersKept.nodup {s t : Store} (h : UsersKept s t)
    (hs : (s.users.map User.email).Nodup) : (t.users.map User.email).Nodup := by
  rcases h with h | ⟨u, hu, hfresh⟩
  · have he : ∀ l : List User, l.map User.email = (l.map User.key).map (fun k => k.2.2) := by
      intro l
      simp [List.map_map, Function.comp_def, User.key]
    rw [he, h, ← he]
    exact hs
  · rw [hu, List.map_append, List.nodup_append]
    refine ⟨hs, by simp, ?_⟩
    intro a ha hb
    simp only [List.map_cons, List.map_nil, List.mem_singleton] at hb
    obtain ⟨v, hv, hva⟩ := List.mem_map.1 ha
    exact hfresh v hv (by rw [hva, hb])

theorem UsersKept.keys {s t : Store} (h : UsersKept s t) :
    ∃ extra, t.users.map User.key = s.users.map User.key ++ extra := by
  rcases h with h | ⟨u, hu, _⟩
  · exact ⟨[], by simp [h]⟩
  · exact ⟨[u.key], by simp [hu]⟩

theorem run_keys (B : Bcrypt) (reqs : List Request) (s : Store) :
    ∃ extra, (run B s reqs).users.map User.key = s.users.map User.key ++ extra := by
  induction reqs generalizing s with
  | nil => exact ⟨[], by simp [run]⟩
  | cons req reqs ih =>
    obtain ⟨x1, h1⟩ := (step_usersKept B s req).keys
    obtain ⟨x2, h2⟩ := ih (step B s req)
    refine ⟨x1 ++ x2, ?_⟩
    have : run B s (req :: reqs) = run B (step B s req) reqs := rfl
    rw [this, h2, h1, List.append_assoc]

theorem run_nodup (B : Bcrypt) (reqs : List Request) (s : Store)
    (hs : (s.users.map User.email).Nodup) : ((run B s reqs).users.map User.email).Nodup := by
  induction reqs generalizing s with
  | nil => exact hs
  | cons req reqs ih => exact ih (step B s req) ((step_usersKept B s req).nodup hs)

/-- C9. Email uniqueness is an invariant of the sequential step relation: from a
store with at most one user per email, after any finite sequence of requests to
any route, each run to completion before the next, the users table still has at
most one user per email; and no request removes a user: the identifier, username
and email of every row stay in place, new rows only follow them. -/
theorem email_uniqueness_invariant (B : Bcrypt) (s : Store) (reqs : List Request)
    (hs : (s.users.map User.email).Nodup) :
    ((run B s reqs).users.map User.email).Nodup ∧
      (∃ extra, (run B s reqs).users.map User.key = s.users.map User.key ++ extra) ∧
      ∀ u ∈ s.users, ∃ v ∈ (run B s reqs).users,
        v.id = u.id ∧ v.username = u.username ∧ v.email = u.email := by
  refine ⟨run_nodup B reqs s hs, run_keys B reqs s, ?_⟩
  intro u hu
  obtain ⟨extra, hx⟩ := run_keys B reqs s
  have hk : u.key ∈ (run B s reqs).users.map User.key := by
    rw [hx]
    exact List.mem_append_left _ (List.mem_map_of_mem _ hu)
  obtain ⟨v, hv, hvk⟩ := List.mem_map.1 hk
  simp only [User.key, Prod.mk.injEq] at hvk
  exact ⟨v, hv, hvk.1, hvk.2.1, hvk.2.2⟩

/-- Witness of C9: the session on the store of alice. -/
theorem email_uniqueness_invariant_witness :
    (aliceStore.users.map User.email).Nodup ∧
      ((run plainBcrypt aliceStore session).users.map User.email).Nodup ∧
      (∃ extra, (run plainBcrypt aliceStore session).users.map User.key =
        aliceStore.users.map User.key ++ extra) ∧
      ∀ u ∈ aliceStore.users, ∃ v ∈ (run plainBcrypt aliceStore session).users,
        v.id = u.id ∧ v.username = u.username ∧ v.email = u.email :=
  ⟨by decide, email_uniqueness_invariant plainBcrypt aliceStore session (by decide)⟩

/-! ## Pagination of the jobs listing -/

/-- Every `GET /api/jobs` is answered by the first registration of the path. -/
theorem handle_get_jobs (B : Bcrypt) (s : Store) (req : Request)
    (hm : req.method = .GET) (hp : req.path = ["api", "jobs"]) :
    handle B s req = some (getJobs req.env s) := by
  simp [handle, dispatch, app, List.findSome?_cons, Route.run, hm, hp, matchPath]

/-- The handler of the second registration, were it reached, pages the table. -/
theorem getJobsPaginated_rows (env : Env) (s : Store) (p l : Nat) (hp : 1 ≤ p)
    (hok : env.dbFail 0 = false) :
    (getJobsPaginated env s ⟨some p, some l⟩).2 =
      ⟨200, true, .jobs ((s.jobs.drop ((p - 1) * l)).take l)⟩ := by
  have hoff : ((p : Int) - 1) * (l : Int) = (((p - 1) * l : Nat) : Int) := by
    rw [Nat.cast_mul, Nat.cast_sub hp, Nat.cast_one]
  have hnn : ¬ (((p - 1) * l : Nat) : Int) < 0 := not_lt.2 (Int.natCast_nonneg _)
  simp only [getJobsPaginated, Option.getD_some, hok, Bool.false_or, decide_eq_true_eq, hnn,
    if_false, hoff, Int.toNat_natCast]

/-- C6, at the failing input. With eleven rows in the jobs table the application
answers `GET /api/jobs?page=2&limit=10` through the first registration of the
path, with all eleven rows from offset 0; the paginated handler of the second
registration, which is never reached, would answer with the one row at offset
10. -/
theorem get_jobs_ignores_page_and_limit :
    handle plainBcrypt elevenJobs secondPage =
        some (elevenJobs, ⟨200, true, .jobs elevenJobs.jobs⟩) ∧
      elevenJobs.jobs.length = 11 ∧
      (getJobsPaginated calm elevenJobs secondPage.query).2 =
        ⟨200, true, .jobs [plainJob 11]⟩ := by
  decide

end FreeTrust
